import Mathlib

/-!
Verification of the real-time exercise repetition counting engine of the
MVP fitness application.

The repository splits the engine across a React frontend (under
src/frontend_v2 and src/unnamed) and a FastAPI backend (backend_v2).  The
backend Python modules (modules/exercise/base.py, bicep_curl.py, squat.py,
tracker.py) are not present in the source tree; only backend_v2/README.md
(the documentation of those modules, including the per-exercise angle
thresholds and the module-level tracker singleton) and the frontend call
sites are.  Definitions for those missing modules are therefore modelled
from the specification and from backend_v2/README.md, and are marked as
such in their doc comments.  Everything else is translated directly from
the JavaScript sources.
-/

namespace FitnessEngine

/-- Stage of a repetition cycle as judged from the measured joint angle. -/
inductive Stage where
  | unknown
  | contracted
  | extended
deriving DecidableEq, Repr

/-- Counting direction of an exercise profile: a rep completes either on
the contracted-to-extended transition or on the reverse one. -/
inductive CountDir where
  | toExtended
  | toContracted
deriving DecidableEq, Repr

/-- Source stage of the counting transition. -/
def CountDir.src : CountDir → Stage
  | .toExtended => .contracted
  | .toContracted => .extended

/-- Target stage of the counting transition. -/
def CountDir.tgt : CountDir → Stage
  | .toExtended => .extended
  | .toContracted => .contracted

/-- Modelled from the spec: an ExerciseProfile (backend module
modules/exercise is absent from the tree).  Thresholds are in degrees;
the per-exercise values come from backend_v2/README.md. -/
structure Profile where
  variantId : String
  contractedThreshold : ℚ
  extendedThreshold : ℚ
  countingDirection : CountDir
  historyLen : ℕ
deriving DecidableEq, Repr

/-- Modelled from the spec: the mutable state of one RepCounter
(backend module modules/exercise is absent from the tree). -/
structure RepCounterState where
  stage : Stage
  repCount : ℕ
  angleHistory : List ℚ
deriving DecidableEq, Repr

/-- The initial state of a rep counter. -/
def initialCounter : RepCounterState :=
  { stage := .unknown, repCount := 0, angleHistory := [] }

/-- Modelled from the spec: the target stage for an angle reading.
An angle at or below the contracted threshold targets CONTRACTED, at or
above the extended threshold targets EXTENDED, and a reading strictly
inside the hysteresis band targets nothing. -/
def angleTarget (p : Profile) (θ : ℚ) : Option Stage :=
  if θ ≤ p.contractedThreshold then some .contracted
  else if p.extendedThreshold ≤ θ then some .extended
  else none

/-- Append a reading to the bounded angle history, evicting the oldest
entries beyond the fixed capacity. -/
def pushHistory (n : ℕ) (h : List ℚ) (θ : ℚ) : List ℚ :=
  let h2 := h ++ [θ]
  h2.drop (h2.length - n)

/-- Modelled from the spec: one step of the RepCounter state machine
(backend module modules/exercise is absent from the tree).  A rep is
counted exactly when the stage transitions in the configured counting
direction; the very first valid reading only sets the initial stage from
UNKNOWN and never counts. -/
def processAngle (p : Profile) (s : RepCounterState) (θ : ℚ) :
    RepCounterState × Bool :=
  let hist := pushHistory p.historyLen s.angleHistory θ
  match angleTarget p θ with
  | none => ({ s with angleHistory := hist }, false)
  | some t =>
    if s.stage = t then ({ s with angleHistory := hist }, false)
    else if s.stage = p.countingDirection.src ∧ t = p.countingDirection.tgt then
      ({ stage := t, repCount := s.repCount + 1, angleHistory := hist }, true)
    else
      ({ s with stage := t, angleHistory := hist }, false)

/-- Modelled from the spec: a missing or undefined angle reading is
dropped: no stage update, nothing appended to the history, no error. -/
def processReading (p : Profile) (s : RepCounterState) (r : Option ℚ) :
    RepCounterState × Bool :=
  match r with
  | none => (s, false)
  | some θ => processAngle p s θ

/-- Run the rep counter over a sequence of valid angle readings. -/
def runAngles (p : Profile) (s : RepCounterState) (l : List ℚ) :
    RepCounterState :=
  l.foldl (fun st θ => (processAngle p st θ).1) s

/-- Bicep curl profile, thresholds from backend_v2/README.md: curled (up)
below 30 degrees, extended (down) above 160 degrees; a rep is counted on
the way up, i.e. on the extended-to-contracted transition. -/
def bicepCurlProfile : Profile :=
  { variantId := "bicep_curl"
    contractedThreshold := 30
    extendedThreshold := 160
    countingDirection := .toContracted
    historyLen := 5 }

/-- Squat profile, thresholds from backend_v2/README.md: squatting (down)
below 90 degrees, standing (up) above 160 degrees; a rep is counted on
standing back up, i.e. on the contracted-to-extended transition. -/
def squatProfile : Profile :=
  { variantId := "squat"
    contractedThreshold := 90
    extendedThreshold := 160
    countingDirection := .toExtended
    historyLen := 5 }

/-- Modelled from the spec: the fixed exercise catalog; the eight variant
names are those listed in backend_v2/README.md.  Unknown names yield a
NotFound condition, modelled as none. -/
def exerciseRegistry (name : String) : Option Profile :=
  if name = "bicep_curl" ∨ name = "bicep_curl_left" ∨
     name = "bicep_curl_right" ∨ name = "bicep_curl_both" then
    some { bicepCurlProfile with variantId := name }
  else if name = "squat" ∨ name = "squat_left" ∨
          name = "squat_right" ∨ name = "squat_both" then
    some { squatProfile with variantId := name }
  else none

/-- Sanity scenario from the specification: a bicep curl over the angle
sequence 170, 90, 20 yields exactly one rep. -/
theorem scenario_curl_one_rep :
    (runAngles bicepCurlProfile initialCounter [170, 90, 20]).repCount = 1 := by
  decide

/-- Sanity scenario from the specification: a bicep curl over the angle
sequence 170, 20, 170, 20 yields exactly two reps. -/
theorem scenario_curl_two_reps :
    (runAngles bicepCurlProfile initialCounter [170, 20, 170, 20]).repCount = 2 := by
  decide

/-- Sanity scenario from the specification: a squat over 170, 80, 170
yields one rep and ends in the EXTENDED stage. -/
theorem scenario_squat_one_rep :
    (runAngles squatProfile initialCounter [170, 80, 170]).repCount = 1 ∧
    (runAngles squatProfile initialCounter [170, 80, 170]).stage = .extended := by
  decide

/-- State of the frontend RepCountingService singleton
(src/frontend_v2/src/services/repCountingService.js).  The callbacks
record is kept abstract in the type parameter κ. -/
structure RCService (κ : Type) where
  isActive : Bool
  currentExercise : Option String
  repCount : ℕ
  sessionId : Option String
  callbacks : κ
deriving DecidableEq, Repr

/-- Backend response to POST /api/session/start as consumed by
RCService.startSession: either a fresh session id or a failed request. -/
inductive StartResp where
  | ok (sessionId : String)
  | err (msg : String)
deriving DecidableEq, Repr

/-- Backend response to POST /api/exercise/analyze as consumed by
RCService.processFrame (field names from backend_v2/README.md). -/
structure AnalyzeResp where
  success : Bool
  error : Option String
  reps : ℕ
  stage : String
  angle : Option ℚ
  repCompleted : Bool
deriving DecidableEq, Repr

/-- Backend response to POST /api/session/end as consumed by
RCService.endSession. -/
inductive EndResp where
  | ok
  | err (msg : String)
deriving DecidableEq, Repr

/-- Return value of RCService.startSession. -/
inductive StartResult where
  | success (sessionId : String)
  | failure (msg : String)
deriving DecidableEq, Repr

/-- Return value of RCService.processFrame. -/
inductive FrameResult where
  | success (repCount : ℕ) (stage : String) (angle : Option ℚ)
      (repCompleted : Bool)
  | failure (msg : String)
deriving DecidableEq, Repr

/-- Return value of RCService.endSession.  The successNoSession case is
the early return with success true and the message No active session. -/
inductive EndResult where
  | successNoSession
  | success (finalRepCount : ℕ)
  | failure (msg : String)
deriving DecidableEq, Repr

/-- RCService.startSession (repCountingService.js lines 48 to 80): throws
when no exercise is selected; otherwise, on a successful backend
response, stores the new session id and marks the service active.  The
rep count is not touched. -/
def RCService.startSession (s : RCService κ) (resp : StartResp) :
    RCService κ × StartResult :=
  if s.currentExercise = none then
    (s, .failure "No exercise selected")
  else
    match resp with
    | .ok sid => ({ s with sessionId := some sid, isActive := true }, .success sid)
    | .err m => (s, .failure m)

/-- RCService.processFrame (repCountingService.js lines 83 to 138): fails
when the session is not active; otherwise the stored rep count is raised
to the reported rep count when the latter is larger. -/
def RCService.processFrame (s : RCService κ) (resp : AnalyzeResp) :
    RCService κ × FrameResult :=
  if s.isActive = false ∨ s.currentExercise = none then
    (s, .failure "Session not active")
  else if resp.success then
    let s2 := if s.repCount < resp.reps then { s with repCount := resp.reps } else s
    (s2, .success s2.repCount resp.stage resp.angle resp.repCompleted)
  else
    (s, .failure (resp.error.getD ""))

/-- RCService.endSession (repCountingService.js lines 156 to 189): with
no stored session id it returns success immediately; otherwise, on a
successful backend response, it deactivates the service, clears the
session id, zeroes the rep count and returns the previous rep count. -/
def RCService.endSession (s : RCService κ) (resp : EndResp) :
    RCService κ × EndResult :=
  if s.sessionId = none then
    (s, .successNoSession)
  else
    match resp with
    | .ok => ({ s with isActive := false, sessionId := none, repCount := 0 },
              .success s.repCount)
    | .err m => (s, .failure m)

/-- RCService.resetCount (repCountingService.js lines 201 to 204): zeroes
the stored rep count and nothing else. -/
def RCService.resetCount (s : RCService κ) : RCService κ :=
  { s with repCount := 0 }

/-- The exercise display data held by the WorkoutContext
(src/unnamed/part_001): reps, stage, angle and calories. -/
structure ExerciseData where
  reps : ℕ
  stage : String
  angle : Option ℚ
  calories : ℚ
deriving DecidableEq, Repr

/-- The initial and reset value of ExerciseData
(src/unnamed/part_001 lines 128 to 133). -/
def initialExerciseData : ExerciseData :=
  { reps := 0, stage := "ready", angle := none, calories := 0 }

/-- One frame result as merged by the workout page; a field that the
analyze response does not carry is none (JavaScript undefined). -/
structure FrameData where
  reps : Option ℕ
  stage : Option String
  angle : Option ℚ
  calories : Option ℚ
deriving DecidableEq, Repr

/-- JavaScript truthiness fallback x || y on an optional natural number:
a missing, null or zero value falls back to y. -/
def orFalsyNat (x : Option ℕ) (y : ℕ) : ℕ :=
  match x with
  | some v => if v = 0 then y else v
  | none => y

/-- JavaScript truthiness fallback x || y on an optional rational. -/
def orFalsyRat (x : Option ℚ) (y : ℚ) : ℚ :=
  match x with
  | some v => if v = 0 then y else v
  | none => y

/-- JavaScript truthiness fallback x || y where the stored value is
itself nullable (the displayed angle can be null). -/
def orFalsyAngle (x : Option ℚ) (y : Option ℚ) : Option ℚ :=
  match x with
  | some v => if v = 0 then y else some v
  | none => y

/-- JavaScript truthiness fallback x || y on an optional string: a
missing or empty string falls back to y. -/
def orFalsyStr (x : Option String) (y : String) : String :=
  match x with
  | some v => if v = "" then y else v
  | none => y

/-- The per-frame state fold in WorkoutPage.processFrame
(src/frontend_v2/src/pages/ProfileSetup.js lines 784 to 789): every
field of the frame result is merged onto the previous display value with
a truthiness fallback. -/
def applyFrame (e : ExerciseData) (d : FrameData) : ExerciseData :=
  { reps := orFalsyNat d.reps e.reps
    stage := orFalsyStr d.stage e.stage
    angle := orFalsyAngle d.angle e.angle
    calories := orFalsyRat d.calories e.calories }

/-- Fold a sequence of analyzed frames into the displayed exercise
data. -/
def runFrames (e : ExerciseData) (l : List FrameData) : ExerciseData :=
  l.foldl applyFrame e

/-- endWorkoutSession (src/unnamed/part_001 lines 201 to 234) reports
calories_burned equal to the current exerciseData.calories after all
frames of the session have been folded in. -/
def reportedCalories (e : ExerciseData) (l : List FrameData) : ℚ :=
  (runFrames e l).calories

/-- The sum of the per-frame calories_delta values over a sequence of
frames: the quantity the specification says the end-of-session report
equals.  Stated from the words of the specification for comparison with
reportedCalories. -/
def sumCaloriesDelta (l : List FrameData) : ℚ :=
  (l.map (fun d => d.calories.getD 0)).sum

/-- WorkoutContext.resetExercise (src/unnamed/part_001 lines 243 to
257): when the backend reset succeeds the exercise data is set back to
the initial ready value, otherwise it is left unchanged. -/
def resetExerciseData (e : ExerciseData) (backendOk : Bool) : ExerciseData :=
  if backendOk then initialExerciseData else e

/-- Modelled from the spec: RepCounter reset (the backend module
modules/exercise is absent from the tree): clears the stage to UNKNOWN,
the rep count to 0 and empties the angle history. -/
def resetCounter (s : RepCounterState) : RepCounterState :=
  { s with stage := .unknown, repCount := 0, angleHistory := [] }

/-- A body landmark: coordinates plus a per-landmark confidence score
(the z coordinate is ignored by the engine). -/
structure Landmark where
  x : ℚ
  y : ℚ
  z : ℚ
  confidence : ℚ
deriving DecidableEq, Repr

/-- A landmark set: an association of landmark names to landmarks, as
delivered by the external pose component. -/
def LandmarkSet : Type := List (String × Landmark)

/-- Look a named landmark up in a landmark set. -/
def lookupLandmark (ls : LandmarkSet) (name : String) : Option Landmark :=
  (ls.find? (fun p => p.1 == name)).map Prod.snd

/-- Modelled from the spec: the configuration of one ExerciseAnalyzer
(the backend module modules/exercise is absent from the tree): the
measured landmark triplet in order endpoint, vertex, endpoint, the
minimum per-landmark confidence, and the calories per rep. -/
structure AnalyzerConfig where
  profile : Profile
  landmarkA : String
  landmarkB : String
  landmarkC : String
  minConfidence : ℚ
  caloriesPerRep : ℚ
deriving DecidableEq, Repr

/-- Modelled from the spec: the state of one ExerciseAnalyzer: the owned
rep counter plus the running calorie total. -/
structure AnalyzerState where
  counter : RepCounterState
  calorieTotal : ℚ
deriving DecidableEq, Repr

/-- The initial analyzer state. -/
def initialAnalyzer : AnalyzerState :=
  { counter := initialCounter, calorieTotal := 0 }

/-- Modelled from the spec: resolve the measured triplet from the
landmark set; none when any required landmark is absent or below the
minimum confidence. -/
def resolveTriplet (cfg : AnalyzerConfig) (ls : LandmarkSet) :
    Option (Landmark × Landmark × Landmark) :=
  match lookupLandmark ls cfg.landmarkA, lookupLandmark ls cfg.landmarkB,
        lookupLandmark ls cfg.landmarkC with
  | some la, some lb, some lc =>
      if la.confidence < cfg.minConfidence ∨ lb.confidence < cfg.minConfidence ∨
         lc.confidence < cfg.minConfidence then
        none
      else
        some (la, lb, lc)
  | _, _, _ => none

/-- The per-frame result of ExerciseAnalyzer.analyze. -/
structure AnalyzeOut where
  angle : Option ℚ
  stage : Stage
  repCount : ℕ
  repCompleted : Bool
  caloriesDelta : ℚ
  isError : Bool
deriving DecidableEq, Repr

/-- Modelled from the spec: ExerciseAnalyzer.analyze (the backend module
modules/exercise is absent from the tree).  The angle geometry is passed
as a function returning none on degenerate input.  A frame whose
required landmarks are missing or whose geometry is degenerate is
absorbed as a no-op frame with a null angle and no error; otherwise the
rep counter advances, and a completed rep contributes the
bodyweight-scaled calories per rep as the calories delta of the frame. -/
def analyzeOneFrame (cfg : AnalyzerConfig)
    (geo : Landmark → Landmark → Landmark → Option ℚ)
    (bodyweightFactor : ℚ) (st : AnalyzerState) (ls : LandmarkSet) :
    AnalyzerState × AnalyzeOut :=
  let reading : Option ℚ :=
    match resolveTriplet cfg ls with
    | none => none
    | some (la, lb, lc) => geo la lb lc
  match reading with
  | none =>
      (st, { angle := none, stage := st.counter.stage,
             repCount := st.counter.repCount, repCompleted := false,
             caloriesDelta := 0, isError := false })
  | some θ =>
      let step := processAngle cfg.profile st.counter θ
      let delta := if step.2 then cfg.caloriesPerRep * bodyweightFactor else 0
      ({ counter := step.1, calorieTotal := st.calorieTotal + delta },
       { angle := some θ, stage := step.1.stage, repCount := step.1.repCount,
         repCompleted := step.2, caloriesDelta := delta, isError := false })

/-- A required landmark of the analyzer configuration is missing from
the frame, or present but below the minimum confidence. -/
def MissingOrLowConfidence (cfg : AnalyzerConfig) (ls : LandmarkSet) : Prop :=
  lookupLandmark ls cfg.landmarkA = none ∨
  lookupLandmark ls cfg.landmarkB = none ∨
  lookupLandmark ls cfg.landmarkC = none ∨
  (∃ lm, (lookupLandmark ls cfg.landmarkA = some lm ∨
          lookupLandmark ls cfg.landmarkB = some lm ∨
          lookupLandmark ls cfg.landmarkC = some lm) ∧
         lm.confidence < cfg.minConfidence)

/-- Modelled from the spec: the per-session state owned by the
SessionRegistry (the backend session endpoints are absent from the
tree). -/
structure SessionState where
  sessionId : String
  userBodyweight : ℚ
  counters : List (String × AnalyzerState)
  totalReps : ℕ
  totalCalories : ℚ
  isActive : Bool
deriving DecidableEq, Repr

/-- Modelled from the spec: the registry of open sessions, keyed by
session id. -/
def SessionRegistry : Type := List (String × SessionState)

/-- Look an open session up by its id. -/
def lookupSession (reg : SessionRegistry) (sid : String) : Option SessionState :=
  (reg.find? (fun p => p.1 == sid)).map Prod.snd

/-- Error conditions of the session registry. -/
inductive RegistryError where
  | alreadyActive
  | sessionNotFound
  | exerciseNotSelected
  | notFound
deriving DecidableEq, Repr

/-- Modelled from the spec: a fresh, empty session state. -/
def freshSession (sid : String) (bw : ℚ) : SessionState :=
  { sessionId := sid, userBodyweight := bw, counters := [],
    totalReps := 0, totalCalories := 0, isActive := true }

/-- Modelled from the spec: start_session fails with AlreadyActive when
the given session id is already open, leaving the registry untouched,
and otherwise allocates a fresh empty session state (the backend session
endpoints are absent from the tree). -/
def registryStart (reg : SessionRegistry) (sid : String) (bw : ℚ) :
    SessionRegistry × Except RegistryError SessionState :=
  match lookupSession reg sid with
  | some _ => (reg, .error .alreadyActive)
  | none =>
      let st := freshSession sid bw
      ((sid, st) :: reg, .ok st)

/-- Modelled from the spec: the backend exercise tracker
(modules/exercise/tracker.py is absent from the tree).  Per
backend_v2/README.md it is a module-level singleton mapping an exercise
name alone to the rep counter for that exercise; the analyze route
carries no session identifier, so every client of the backend shares
this state. -/
def Tracker : Type := String → RepCounterState

/-- The tracker at startup: every exercise at its initial counter. -/
def initialTracker : Tracker := fun _ => initialCounter

/-- Render a stage for the analyze response. -/
def stageName : Stage → String
  | .unknown => "ready"
  | .contracted => "contracted"
  | .extended => "extended"

/-- Modelled from the spec: the analyze route
POST /api/exercise/analyze by exercise name (backend_v2/README.md): it
resolves the rep counter by exercise name alone, advances it with the
angle reading extracted from the frame, and reports the shared rep
count. -/
def backendAnalyze (t : Tracker) (name : String) (r : Option ℚ) :
    Tracker × AnalyzeResp :=
  match exerciseRegistry name with
  | none =>
      (t, { success := false, error := some "Exercise not found", reps := 0,
            stage := "", angle := none, repCompleted := false })
  | some p =>
      let step := processReading p (t name) r
      (fun n => if n = name then step.1 else t n,
       { success := true, error := none, reps := step.1.repCount,
         stage := stageName step.1.stage, angle := r,
         repCompleted := step.2 })

/-- One camera frame submitted by one frontend rep counting service
client: the client returns early unless it is active with a selected
exercise (repCountingService.js lines 85 to 87); otherwise the shared
backend tracker advances and the client folds the response
(repCountingService.js lines 110 to 129). -/
def clientStep (t : Tracker) (svc : RCService κ) (r : Option ℚ) :
    Tracker × RCService κ :=
  match svc.currentExercise with
  | none => (t, svc)
  | some e =>
      if svc.isActive then
        let a := backendAnalyze t e r
        (a.1, (svc.processFrame a.2).1)
      else
        (t, svc)

/-- The frontend service client of workout session A, active on the
bicep curl. -/
def svcA0 : RCService Unit :=
  { isActive := true, currentExercise := some "bicep_curl", repCount := 0,
    sessionId := some "session_a", callbacks := () }

/-- The frontend service client of workout session B, active on the
same bicep curl variant. -/
def svcB0 : RCService Unit :=
  { isActive := true, currentExercise := some "bicep_curl", repCount := 0,
    sessionId := some "session_b", callbacks := () }

/-- The two clients after the interleaving in which A submits the angle
readings 170 and then 20 (one full curl cycle) and B then submits a
single reading of 90, inside the hysteresis band. -/
def interferenceFinal : RCService Unit × RCService Unit :=
  let s1 := clientStep initialTracker svcA0 (some 170)
  let s2 := clientStep s1.1 s1.2 (some 20)
  let s3 := clientStep s2.1 svcB0 (some 90)
  (s2.2, s3.2)

/-- The frontend service as constructed
(repCountingService.js lines 2 to 15): inactive, no exercise, no session
id, zero reps. -/
def freshService : RCService Unit :=
  { isActive := false, currentExercise := none, repCount := 0,
    sessionId := none, callbacks := () }

/-- A frame carrying only a calories value, as used to compare the
session calorie report with the per-frame deltas. -/
def deltaFrame (c : ℚ) : FrameData :=
  { reps := none, stage := none, angle := none, calories := some c }

/-- Claim C1: for every pair of distinct active sessions that have
selected the same exercise variant, processing frames for session A
never changes the rep count of session B.  This fails on the code: the
frame analysis request carries no session identifier and the backend
tracker is keyed by exercise name alone, so after session A performs one
full curl cycle and session B submits a single frame inside the
hysteresis band (no rep motion), the rep count of session B reads 1 and
not 0. -/
theorem C1_cross_session_interference :
    interferenceFinal.1.repCount = 1 ∧
    interferenceFinal.2.repCount = 1 ∧
    ¬ interferenceFinal.2.repCount = 0 := by
  decide

/-- Claim C9: in the workout page per-frame state fold, any frame result
field that is missing, null, zero or an empty string leaves the
previously displayed value unchanged, because each field is merged with
a truthiness fallback. -/
theorem C9_falsy_fields_keep_previous (e : ExerciseData) (d : FrameData) :
    ((d.reps = none ∨ d.reps = some 0) → (applyFrame e d).reps = e.reps) ∧
    ((d.angle = none ∨ d.angle = some 0) → (applyFrame e d).angle = e.angle) ∧
    ((d.calories = none ∨ d.calories = some 0) →
      (applyFrame e d).calories = e.calories) ∧
    ((d.stage = none ∨ d.stage = some "") → (applyFrame e d).stage = e.stage) := by
  refine ⟨?_, ?_, ?_, ?_⟩ <;> rintro (h | h) <;>
    simp [applyFrame, orFalsyNat, orFalsyAngle, orFalsyRat, orFalsyStr, h]

/-- Witness for claim C9 at a concrete display state and an all-falsy
frame: reps 0, empty stage, null angle and calories 0 all keep the prior
displayed values. -/
theorem C9_witness :
    (applyFrame ⟨7, "up", some 33, 12⟩ ⟨some 0, some "", none, some 0⟩).reps = 7 ∧
    (applyFrame ⟨7, "up", some 33, 12⟩ ⟨some 0, some "", none, some 0⟩).angle = some 33 ∧
    (applyFrame ⟨7, "up", some 33, 12⟩ ⟨some 0, some "", none, some 0⟩).calories = 12 ∧
    (applyFrame ⟨7, "up", some 33, 12⟩ ⟨some 0, some "", none, some 0⟩).stage = "up" := by
  have h := C9_falsy_fields_keep_previous ⟨7, "up", some 33, 12⟩
    ⟨some 0, some "", none, some 0⟩
  exact ⟨h.1 (Or.inr rfl), h.2.1 (Or.inl rfl), h.2.2.1 (Or.inr rfl),
    h.2.2.2 (Or.inr rfl)⟩

/-- Claim C10: when endSession succeeds on an active session of the rep
counting service, the returned final rep count equals the rep count
immediately before the call, and afterwards the service is inactive with
a null session id and a zero rep count, while the current exercise and
the registered callbacks are unchanged. -/
theorem C10_end_session_effect (κ : Type) (s : RCService κ) (sid : String)
    (h : s.sessionId = some sid) :
    (s.endSession .ok).2 = .success s.repCount ∧
    (s.endSession .ok).1.isActive = false ∧
    (s.endSession .ok).1.sessionId = none ∧
    (s.endSession .ok).1.repCount = 0 ∧
    (s.endSession .ok).1.currentExercise = s.currentExercise ∧
    (s.endSession .ok).1.callbacks = s.callbacks := by
  simp [RCService.endSession, h]

/-- Witness for claim C10 at a concrete active service with 4 counted
reps. -/
theorem C10_witness :
    ((⟨true, some "squat", 4, some "s1", ()⟩ : RCService Unit).endSession .ok).2 =
      .success 4 ∧
    ((⟨true, some "squat", 4, some "s1", ()⟩ : RCService Unit).endSession .ok).1.repCount = 0 ∧
    ((⟨true, some "squat", 4, some "s1", ()⟩ : RCService Unit).endSession .ok).1.currentExercise =
      some "squat" := by
  have h := C10_end_session_effect Unit ⟨true, some "squat", 4, some "s1", ()⟩ "s1" rfl
  exact ⟨h.1, h.2.2.2.1, h.2.2.2.2.1⟩

/-- Counterexample to claim C4: ending a session on the service when no
session was ever started does not fail with SessionNotFound: it silently
succeeds, returning success true with the No-active-session result and
leaving the state unchanged. -/
theorem C4_counterexample_silent_success :
    freshService.endSession .ok = (freshService, .successNoSession) := by
  decide

/-- Claim C4 as amended: endSession with no started session silently
succeeds with the No-active-session result and an unchanged state
(rather than failing with SessionNotFound), and processFrame called
after a successful endSession fails with the error Session not active
(a failure, though not named SessionNotFound). -/
theorem C4_amended_end_session (κ : Type) (s : RCService κ) (sid : String) :
    (s.sessionId = none → s.endSession .ok = (s, .successNoSession)) ∧
    (s.sessionId = some sid →
      (s.endSession .ok).1.isActive = false ∧
      ∀ resp : AnalyzeResp,
        (s.endSession .ok).1.processFrame resp =
          ((s.endSession .ok).1, .failure "Session not active")) := by
  constructor
  · intro h
    simp [RCService.endSession, h]
  · intro h
    have hend : (s.endSession .ok).1.isActive = false := by
      simp [RCService.endSession, h]
    refine ⟨hend, fun resp => ?_⟩
    simp [RCService.processFrame, hend]

/-- Witness for the amended claim C4: the never-started service silently
succeeds, and a concrete active service, once ended, rejects the next
frame with Session not active. -/
theorem C4_amended_witness :
    freshService.endSession .ok = (freshService, .successNoSession) ∧
    ((⟨true, some "pushup", 2, some "s9", ()⟩ : RCService Unit).endSession .ok).1.processFrame
        ⟨true, none, 3, "up", some 20, true⟩ =
      (((⟨true, some "pushup", 2, some "s9", ()⟩ : RCService Unit).endSession .ok).1,
       .failure "Session not active") := by
  have h1 := C4_amended_end_session Unit freshService "s0"
  have h2 := C4_amended_end_session Unit ⟨true, some "pushup", 2, some "s9", ()⟩ "s9"
  exact ⟨h1.1 rfl, (h2.2 rfl).2 _⟩

/-- Claim C5: resetting a rep counter yields stage UNKNOWN, rep count 0
and an empty angle history regardless of the prior state; the workout
context reset likewise restores the initial ready display data, and the
service resetCount zeroes the stored rep count. -/
theorem C5_reset_clears_state (s : RepCounterState) (e : ExerciseData)
    (κ : Type) (svc : RCService κ) :
    resetCounter s = initialCounter ∧
    (resetCounter s).stage = .unknown ∧
    (resetCounter s).repCount = 0 ∧
    (resetCounter s).angleHistory = [] ∧
    resetExerciseData e true = initialExerciseData ∧
    (svc.resetCount).repCount = 0 := by
  refine ⟨rfl, rfl, rfl, rfl, rfl, rfl⟩

/-- The source and target stages of a counting direction differ. -/
theorem CountDir.src_ne_tgt (d : CountDir) : d.src ≠ d.tgt := by
  cases d <;> decide

/-- Each frame changes the rep count by zero or one. -/
theorem processAngle_step_bound (p : Profile) (s : RepCounterState) (θ : ℚ) :
    s.repCount ≤ (processAngle p s θ).1.repCount ∧
    (processAngle p s θ).1.repCount ≤ s.repCount + 1 := by
  unfold processAngle
  cases h : angleTarget p θ with
  | none => simp
  | some t =>
    by_cases h1 : s.stage = t
    · simp [h1]
    · by_cases h2 : s.stage = p.countingDirection.src ∧ t = p.countingDirection.tgt
      · simp [h1, h2, p.countingDirection.src_ne_tgt]
      · simp [h1, h2]

/-- The rep count never decreases over a run of valid readings. -/
theorem runAngles_le (p : Profile) (s : RepCounterState) (l : List ℚ) :
    s.repCount ≤ (runAngles p s l).repCount := by
  induction l generalizing s with
  | nil => exact le_refl _
  | cons θ l ih =>
    exact le_trans (processAngle_step_bound p s θ).1 (ih (processAngle p s θ).1)

/-- A transition in the configured counting direction increments the rep
count by exactly one. -/
theorem processAngle_counting_step (p : Profile) (s : RepCounterState) (θ : ℚ)
    (h1 : s.stage = p.countingDirection.src)
    (h2 : angleTarget p θ = some p.countingDirection.tgt) :
    (processAngle p s θ).1.repCount = s.repCount + 1 := by
  have hne : s.stage ≠ p.countingDirection.tgt := by
    rw [h1]; exact p.countingDirection.src_ne_tgt
  unfold processAngle
  rw [h2]
  simp [hne, h1, p.countingDirection.src_ne_tgt]

/-- A transition into the source stage of the counting direction, the
reverse of the counting transition, never increments the rep count. -/
theorem processAngle_reverse_step (p : Profile) (s : RepCounterState) (θ : ℚ)
    (h2 : angleTarget p θ = some p.countingDirection.src) :
    (processAngle p s θ).1.repCount = s.repCount := by
  unfold processAngle
  rw [h2]
  by_cases h1 : s.stage = p.countingDirection.src
  · simp [h1]
  · have hno : ¬ (s.stage = p.countingDirection.src ∧
        p.countingDirection.src = p.countingDirection.tgt) := by
      rintro ⟨c1, _⟩; exact h1 c1
    simp [h1, hno]

/-- Claim C2: over any sequence of valid angle readings the rep count is
monotonically non-decreasing, never grows by more than one on a single
frame, increments by exactly one on the transition that completes a
cycle in the configured counting direction, and does not increment on
the reverse transition. -/
theorem C2_rep_count_monotone (p : Profile) (s : RepCounterState) (θ : ℚ)
    (l : List ℚ) :
    (s.repCount ≤ (processAngle p s θ).1.repCount ∧
     (processAngle p s θ).1.repCount ≤ s.repCount + 1) ∧
    s.repCount ≤ (runAngles p s l).repCount ∧
    (s.stage = p.countingDirection.src →
      angleTarget p θ = some p.countingDirection.tgt →
      (processAngle p s θ).1.repCount = s.repCount + 1) ∧
    (angleTarget p θ = some p.countingDirection.src →
      (processAngle p s θ).1.repCount = s.repCount) :=
  ⟨processAngle_step_bound p s θ, runAngles_le p s l,
   fun h1 h2 => processAngle_counting_step p s θ h1 h2,
   fun h2 => processAngle_reverse_step p s θ h2⟩

/-- Witness for claim C2 on the bicep curl profile: from the extended
stage a reading of 20 degrees completes the cycle and counts exactly one
rep, a reading of 170 degrees is the reverse transition and counts
nothing, and the run over 170 then 20 does not decrease the count. -/
theorem C2_witness :
    (processAngle bicepCurlProfile ⟨.extended, 0, []⟩ 20).1.repCount = 0 + 1 ∧
    (processAngle bicepCurlProfile ⟨.extended, 0, []⟩ 170).1.repCount = 0 ∧
    0 ≤ (runAngles bicepCurlProfile ⟨.extended, 0, []⟩ [170, 20]).repCount := by
  have h1 := C2_rep_count_monotone bicepCurlProfile ⟨.extended, 0, []⟩ 20 [170, 20]
  have h2 := C2_rep_count_monotone bicepCurlProfile ⟨.extended, 0, []⟩ 170 [170, 20]
  exact ⟨h1.2.2.1 rfl (by decide), h2.2.2.2 (by decide), h1.2.1⟩

/-- A reading strictly inside the hysteresis band targets no stage. -/
theorem angleTarget_band (p : Profile) (θ : ℚ)
    (h1 : p.contractedThreshold < θ) (h2 : θ < p.extendedThreshold) :
    angleTarget p θ = none := by
  unfold angleTarget
  rw [if_neg (not_le.mpr h1), if_neg (not_le.mpr h2)]

/-- One band frame leaves the stage and the rep count unchanged. -/
theorem processAngle_band (p : Profile) (s : RepCounterState) (θ : ℚ)
    (h1 : p.contractedThreshold < θ) (h2 : θ < p.extendedThreshold) :
    (processAngle p s θ).1.stage = s.stage ∧
    (processAngle p s θ).1.repCount = s.repCount := by
  unfold processAngle
  rw [angleTarget_band p θ h1 h2]
  simp

/-- A run of band frames leaves the stage and the rep count unchanged. -/
theorem runAngles_band (p : Profile) :
    ∀ (l : List ℚ) (s : RepCounterState),
      (∀ x ∈ l, p.contractedThreshold < x ∧ x < p.extendedThreshold) →
      (runAngles p s l).stage = s.stage ∧
      (runAngles p s l).repCount = s.repCount := by
  intro l
  induction l with
  | nil => exact fun s _ => ⟨rfl, rfl⟩
  | cons θ l ih =>
    intro s h
    have hθ := h θ (List.mem_cons_self θ l)
    have hstep := processAngle_band p s θ hθ.1 hθ.2
    have htail := ih (processAngle p s θ).1
      (fun x hx => h x (List.mem_cons_of_mem θ hx))
    exact ⟨htail.1.trans hstep.1, htail.2.trans hstep.2⟩

/-- Claim C6: a reading strictly between the contracted and extended
thresholds produces no stage change, and a whole sequence of readings
inside the hysteresis band produces no stage change and no rep
increment. -/
theorem C6_hysteresis_band (p : Profile) (s : RepCounterState) (θ : ℚ)
    (l : List ℚ)
    (hθ1 : p.contractedThreshold < θ) (hθ2 : θ < p.extendedThreshold)
    (hl : ∀ x ∈ l, p.contractedThreshold < x ∧ x < p.extendedThreshold) :
    ((processAngle p s θ).1.stage = s.stage ∧
     (processAngle p s θ).1.repCount = s.repCount) ∧
    (runAngles p s l).stage = s.stage ∧
    (runAngles p s l).repCount = s.repCount :=
  ⟨processAngle_band p s θ hθ1 hθ2, runAngles_band p l s hl⟩

/-- Witness for claim C6 on the bicep curl profile: the band sequence
90, 100, 35 leaves a counter in the extended stage with 2 reps exactly
as it was. -/
theorem C6_witness :
    (runAngles bicepCurlProfile ⟨.extended, 2, []⟩ [90, 100, 35]).stage =
      .extended ∧
    (runAngles bicepCurlProfile ⟨.extended, 2, []⟩ [90, 100, 35]).repCount = 2 := by
  have h := C6_hysteresis_band bicepCurlProfile ⟨.extended, 2, []⟩ 90 [90, 100, 35]
    (by decide) (by decide)
    (by
      intro x hx
      simp only [List.mem_cons, List.not_mem_nil, or_false] at hx
      rcases hx with rfl | rfl | rfl
      · exact ⟨by decide, by decide⟩
      · exact ⟨by decide, by decide⟩
      · exact ⟨by decide, by decide⟩)
  exact ⟨h.2.1, h.2.2⟩

/-- A frame with a missing or low-confidence required landmark resolves
to no triplet. -/
theorem resolveTriplet_eq_none (cfg : AnalyzerConfig) (ls : LandmarkSet)
    (h : MissingOrLowConfidence cfg ls) : resolveTriplet cfg ls = none := by
  unfold resolveTriplet
  cases hA : lookupLandmark ls cfg.landmarkA with
  | none => rfl
  | some la =>
    cases hB : lookupLandmark ls cfg.landmarkB with
    | none => rfl
    | some lb =>
      cases hC : lookupLandmark ls cfg.landmarkC with
      | none => rfl
      | some lc =>
        rcases h with h | h | h | ⟨lm, hm, hc⟩
        · rw [hA] at h; cases h
        · rw [hB] at h; cases h
        · rw [hC] at h; cases h
        · have hcond : la.confidence < cfg.minConfidence ∨
              lb.confidence < cfg.minConfidence ∨
              lc.confidence < cfg.minConfidence := by
            rcases hm with hm | hm | hm
            · rw [hA] at hm; injection hm with e; rw [e]; exact Or.inl hc
            · rw [hB] at hm; injection hm with e; rw [e]; exact Or.inr (Or.inl hc)
            · rw [hC] at hm; injection hm with e; rw [e]; exact Or.inr (Or.inr hc)
          exact if_pos hcond

/-- Claim C3: a frame whose required landmarks are missing or below the
minimum confidence returns the previously stored stage and rep count
unchanged, with a null angle, no completed rep, a zero calorie delta and
no error, and leaves the analyzer state, the rep count, the stage and
the angle history untouched. -/
theorem C3_missing_landmark_noop (cfg : AnalyzerConfig)
    (geo : Landmark → Landmark → Landmark → Option ℚ) (bw : ℚ)
    (st : AnalyzerState) (ls : LandmarkSet)
    (h : MissingOrLowConfidence cfg ls) :
    analyzeOneFrame cfg geo bw st ls =
      (st, { angle := none, stage := st.counter.stage,
             repCount := st.counter.repCount, repCompleted := false,
             caloriesDelta := 0, isError := false }) := by
  unfold analyzeOneFrame
  rw [resolveTriplet_eq_none cfg ls h]

/-- The analyzer configuration of the left-arm bicep curl. -/
def curlConfig : AnalyzerConfig :=
  { profile := bicepCurlProfile, landmarkA := "left_shoulder",
    landmarkB := "left_elbow", landmarkC := "left_wrist",
    minConfidence := 1/2, caloriesPerRep := 1 }

/-- Witness for claim C3: an empty landmark set is absorbed as a no-op
frame on the fresh analyzer. -/
theorem C3_witness :
    analyzeOneFrame curlConfig (fun _ _ _ => none) 1 initialAnalyzer [] =
      (initialAnalyzer,
       { angle := none, stage := .unknown, repCount := 0,
         repCompleted := false, caloriesDelta := 0, isError := false }) :=
  C3_missing_landmark_noop curlConfig (fun _ _ _ => none) 1 initialAnalyzer []
    (Or.inl rfl)

/-- Counterexample to claim C7: with the per-frame calorie deltas 5, 0
and 5 (two completed reps of five calories each with a non-rep frame in
between), the workout page fold reports 5 calories at session end while
the sum of the per-frame deltas is 10. -/
theorem C7_counterexample_not_sum :
    reportedCalories initialExerciseData
        [deltaFrame 5, deltaFrame 0, deltaFrame 5] = 5 ∧
    sumCaloriesDelta [deltaFrame 5, deltaFrame 0, deltaFrame 5] = 10 ∧
    reportedCalories initialExerciseData
        [deltaFrame 5, deltaFrame 0, deltaFrame 5] ≠
      sumCaloriesDelta [deltaFrame 5, deltaFrame 0, deltaFrame 5] := by
  have hrep : reportedCalories initialExerciseData
      [deltaFrame 5, deltaFrame 0, deltaFrame 5] = 5 := by decide
  have hsum : sumCaloriesDelta [deltaFrame 5, deltaFrame 0, deltaFrame 5] = 10 := by
    norm_num [sumCaloriesDelta, deltaFrame]
  refine ⟨hrep, hsum, ?_⟩
  rw [hrep, hsum]
  norm_num

/-- Folding frames whose calories field is missing or zero never changes
the displayed calories. -/
theorem runFrames_calories_falsy :
    ∀ (l : List FrameData) (e : ExerciseData),
      (∀ x ∈ l, x.calories = none ∨ x.calories = some 0) →
      (runFrames e l).calories = e.calories := by
  intro l
  induction l with
  | nil => exact fun e _ => rfl
  | cons d l ih =>
    intro e h
    have hd := h d (List.mem_cons_self d l)
    have htail := ih (applyFrame e d)
      (fun x hx => h x (List.mem_cons_of_mem d hx))
    rw [show runFrames e (d :: l) = runFrames (applyFrame e d) l from rfl, htail]
    rcases hd with hd | hd <;> simp [applyFrame, orFalsyRat, hd]

/-- Folding frames distributes over list append. -/
theorem runFrames_append (e : ExerciseData) (l1 l2 : List FrameData) :
    runFrames e (l1 ++ l2) = runFrames (runFrames e l1) l2 :=
  List.foldl_append _ _ _ _

/-- Claim C7 as amended: the calories value reported when the session
ends equals the last non-zero per-frame calories value received, frames
with a missing or zero value keeping the prior one; it is not the sum of
the per-frame deltas. -/
theorem C7_amended_last_truthy (e : ExerciseData) (l1 l2 : List FrameData)
    (d : FrameData) (v : ℚ) (hd : d.calories = some v) (hv : v ≠ 0)
    (h2 : ∀ x ∈ l2, x.calories = none ∨ x.calories = some 0) :
    reportedCalories e (l1 ++ d :: l2) = v := by
  unfold reportedCalories
  rw [show l1 ++ d :: l2 = (l1 ++ [d]) ++ l2 by simp, runFrames_append,
    runFrames_calories_falsy l2 _ h2, runFrames_append]
  show (applyFrame (runFrames e l1) d).calories = v
  simp [applyFrame, orFalsyRat, hd, hv]

/-- Witness for the amended claim C7: over the delta sequence 3, 7, 0
the reported calories are 7, the last non-zero per-frame value. -/
theorem C7_amended_witness :
    reportedCalories initialExerciseData
      [deltaFrame 3, deltaFrame 7, deltaFrame 0] = 7 :=
  C7_amended_last_truthy initialExerciseData [deltaFrame 3] [deltaFrame 0]
    (deltaFrame 7) 7 rfl (by norm_num)
    (by
      intro x hx
      simp only [List.mem_singleton] at hx
      subst hx
      exact Or.inr rfl)

/-- Claim C8: starting a session whose id is already open fails with
AlreadyActive and leaves the registry, and so the in-progress session
state, untouched; starting an unknown id allocates a fresh, empty
session state. -/
theorem C8_start_session_guard (reg : SessionRegistry) (sid : String)
    (bw : ℚ) :
    (lookupSession reg sid ≠ none →
      registryStart reg sid bw = (reg, .error .alreadyActive)) ∧
    (lookupSession reg sid = none →
      registryStart reg sid bw =
        ((sid, freshSession sid bw) :: reg, .ok (freshSession sid bw)) ∧
      (freshSession sid bw).counters = [] ∧
      (freshSession sid bw).totalReps = 0 ∧
      (freshSession sid bw).totalCalories = 0 ∧
      (freshSession sid bw).isActive = true) := by
  constructor
  · intro h
    unfold registryStart
    cases hl : lookupSession reg sid with
    | none => exact absurd hl h
    | some st => rfl
  · intro h
    unfold registryStart
    rw [h]
    exact ⟨rfl, rfl, rfl, rfl, rfl⟩

/-- A registry with one open session, for the claim C8 witness. -/
def reg0 : SessionRegistry := [("s1", freshSession "s1" 70)]

/-- Witness for claim C8: a second start for the open id s1 fails with
AlreadyActive and leaves the registry unchanged, while a start for the
unknown id s2 allocates the fresh empty session. -/
theorem C8_witness :
    registryStart reg0 "s1" 70 = (reg0, .error .alreadyActive) ∧
    (registryStart reg0 "s2" 80).2 = .ok (freshSession "s2" 80) := by
  have h1 := (C8_start_session_guard reg0 "s1" 70).1 (by decide)
  have h2 := (C8_start_session_guard reg0 "s2" 80).2 (by decide)
  exact ⟨h1, by rw [h2.1]⟩

end FitnessEngine
